import Mathlib

/-!
# Supply-chain cost accounting: a shallow embedding

This file embeds the cost data model, the EOQ (economic order quantity)
computation and the Monte Carlo trial runner of the repository
(`src/v1/cost.py`, `src/v1/product.py`, `src/v1/simulator.py`) as Lean
definitions, and proves the specified properties about them.

Python `Decimal` amounts are embedded as rational numbers; the real-valued
`math.sqrt` and the truncated-normal sample are embedded as real numbers.
Python exceptions are embedded as `Except` error values, using the
specification's error taxonomy (`ValidationError`, `DomainError`,
`RangeError`, trial errors) as the error types, with the concrete Python
exception classes and messages recorded in the doc comments.
-/

set_option linter.unusedVariables false

namespace SupplyChain

/-! ## Cost and Costs (`src/v1/cost.py`) -/

/-- Errors raised by the cost data model.  The Python source raises
`AttributeError('Invalid cost name:', ...)` for a malformed name,
`ValueError('The cost can not be negative:', ...)` for a negative amount,
`TypeError` when a required constructor argument is missing, and
`AttributeError` when the f-string of `Costs.__repr__` reads an attribute
the object does not have. -/
inductive CostError where
  | invalidCostName
  | negativeValue
  | missingValueArgument
  | attributeError (attr : String)
deriving DecidableEq, Repr

/-- `Cost`: a named monetary amount (`cost.py`, class `Cost`).  The
`Decimal` amount is embedded as a rational number. -/
structure Cost where
  name : String
  value : ℚ
deriving DecidableEq, Repr

/-- The `value` setter of `Cost` (`cost.py` lines 47-56): it first stores
`Decimal(value)` in the private field and only then checks the sign,
raising `ValueError` when the stored amount is negative.  The returned pair
is the object after the call together with the error, if any: on the error
path the mutation has already happened.  (The preceding `isinstance` guard
rejects non-numeric arguments before any mutation; the model's argument is
already numeric, so that guard always passes here.) -/
def Cost.setValue (c : Cost) (v : ℚ) : Cost × Option CostError :=
  let c' : Cost := { c with value := v }
  if v < 0 then (c', some CostError.negativeValue) else (c', none)

/-- `Cost.__init__(name, value)` (`cost.py` lines 17-22): assigns the name
through the name setter (which rejects an empty or non-string name; the
model's argument is already a string) and then the amount through the value
setter.  A failure inside `__init__` means the object never becomes
observable to the caller, hence the `Except`. -/
def Cost.init (name : String) (value : ℚ) : Except CostError Cost :=
  if name = "" then Except.error CostError.invalidCostName
  else
    match Cost.setValue { name := name, value := 0 } value with
    | (c, none) => Except.ok c
    | (_, some e) => Except.error e

/-- A Python call `Cost(name, value?)` where the `value` argument may be
missing (`none`).  `Cost.__init__` declares `value` with no default
(`cost.py` line 17), so a call without it raises
`TypeError: __init__() missing 1 required positional argument` before the
body of `__init__` runs. -/
def Cost.new (name : String) (value : Option ℚ) : Except CostError Cost :=
  match value with
  | none => Except.error CostError.missingValueArgument
  | some v => Cost.init name v

/-- `Costs`: the private dict `self.__costs` (`cost.py` line 68), keyed by
cost name, with insertion order preserved as in a Python dict. -/
abbrev Costs := List Cost

/-- `Costs.__init__` (`cost.py` lines 64-68): the empty dict. -/
def Costs.empty : Costs := []

/-- `Costs.add` (`cost.py` lines 76-82): `self.__costs[cost.name] = cost`,
which replaces the entry stored under the same name (keeping its position,
as a Python dict does) or appends a new entry.  (The `isinstance(cost,
Cost)` guard always passes here because the argument is typed.) -/
def Costs.add (cs : Costs) (c : Cost) : Costs :=
  if cs.any (fun x => x.name == c.name) then
    cs.map (fun x => if x.name == c.name then c else x)
  else
    cs ++ [c]

/-- The lookup `self.__costs.get(name, default)` on the name-keyed dict:
the stored cost under `name`, or `default` when the name is absent. -/
def Costs.lookup (cs : Costs) (name : String) (default : Cost) : Cost :=
  match cs.find? (fun x => x.name == name) with
  | some c => c
  | none => default

/-- `Costs.get` (`cost.py` lines 84-88): `self.__costs.get(name,
Cost(name))`.  Python evaluates the default argument `Cost(name)` before
`dict.get` is called, and that call is missing the required `value`
argument, so it raises on every call, whether or not `name` is stored. -/
def Costs.get (cs : Costs) (name : String) : Except CostError Cost :=
  match Cost.new name none with
  | Except.error e => Except.error e
  | Except.ok d => Except.ok (Costs.lookup cs name d)

/-- `Costs.total` (`cost.py` lines 90-98): the sum of the stored cost
values. -/
def Costs.total (cs : Costs) : ℚ :=
  (cs.map Cost.value).sum

/-- The attribute names available on a `Costs` instance: `__init__` assigns
only the mangled private dict (`cost.py` line 68), and the class defines
the methods `add` and `get` and the property `total`, but neither a `name`
nor an `address` attribute. -/
def Costs.attrNames : List String :=
  ["_Costs__costs", "add", "get", "total"]

/-- `Costs.__repr__` (`cost.py` lines 70-74): the f-string evaluates
`self.name` first and `self.address` next; looking up an attribute that is
missing from the instance and its class raises `AttributeError`. -/
def Costs.reprImpl (cs : Costs) : Except CostError String :=
  if Costs.attrNames.contains "name" then
    if Costs.attrNames.contains "address" then
      Except.ok "<Costs: name - address>"
    else Except.error (CostError.attributeError "address")
  else Except.error (CostError.attributeError "name")

/-! ## Product and the EOQ computation (`src/v1/product.py`) -/

/-- EOQ precondition failures (`product.py` lines 178-183).  The Python
code raises `RuntimeError` with the messages `'The demand must be
positive.'`, `'The total storage cost must be positive.'` and `'The total
variable cost must be positive.'`; the specification calls these
`DomainError("demand must be positive")` and so on. -/
inductive DomainError where
  | demandMustBePositive
  | storageCostMustBePositive
  | variableCostMustBePositive
deriving DecidableEq, Repr

/-- `Product` (`product.py`): the fields the EOQ computation reads.  The
variable-cost collection stands for the `production_costs` of a
`ProducedProduct` or the `purchase_costs` of a `PurchasedProduct`,
whichever collection the concrete variant sums in its
`total_variable_cost` override. -/
structure Product where
  name : String
  demand : ℚ
  storage_costs : Costs
  variable_costs : Costs
deriving DecidableEq, Repr

/-- `Product.total_storage_cost` (`product.py` lines 137-142). -/
def Product.total_storage_cost (p : Product) : ℚ :=
  Costs.total p.storage_costs

/-- `ProducedProduct.total_variable_cost` / `PurchasedProduct.total_variable_cost`
(`product.py` lines 199-204 and 219-224): the total of the variant's
variable-cost collection. -/
def Product.total_variable_cost (p : Product) : ℚ :=
  Costs.total p.variable_costs

/-- The guarded radicand of `Product.optimum_inventory_level`
(`product.py` lines 178-184): the three truthiness checks in source order
(`not self.demand`, `not self.total_storage_cost`,
`not self.total_variable_cost`, each false exactly when the `Decimal` is
zero), then `2 * demand * total_variable_cost / total_storage_cost`. -/
def Product.eoqRadicand (p : Product) : Except DomainError ℚ :=
  if p.demand = 0 then Except.error DomainError.demandMustBePositive
  else if p.total_storage_cost = 0 then
    Except.error DomainError.storageCostMustBePositive
  else if p.total_variable_cost = 0 then
    Except.error DomainError.variableCostMustBePositive
  else Except.ok (2 * p.demand * p.total_variable_cost / p.total_storage_cost)

/-- `Product.optimum_inventory_level` (`product.py` lines 151-184):
`Decimal(math.sqrt(2 * demand * total_variable_cost /
total_storage_cost))` over the guarded radicand, embedded as the real
square root of the exact rational radicand. -/
noncomputable def Product.optimum_inventory_level (p : Product) :
    Except DomainError ℝ :=
  (Product.eoqRadicand p).map (fun q => Real.sqrt (q : ℝ))

/-! ## Simulator (`src/v1/simulator.py`) -/

/-- Sampler precondition failures (`simulator.py` lines 55-58).  The
Python code raises `ValueError('Mean is too high:', mean)` and
`ValueError('Mean is too low:', mean)`; the specification calls these
`RangeError("mean too high")` and `RangeError("mean too low")`. -/
inductive RangeError where
  | meanTooHigh
  | meanTooLow
deriving DecidableEq, Repr

/-- `Simulator.normal` (`simulator.py` lines 50-59): checks `mean > upper`
and then `mean < lower` before any sampling, and otherwise returns
`Decimal(truncnorm((lower - mean) / std, (upper - mean) / std, loc=mean,
scale=std).rvs())`.  The random draw is embedded as the argument `draw`,
the sample of the truncated standard normal on the standardized interval
`[(lower - mean) / std, (upper - mean) / std]`; `rvs` shifts and scales it
back, returning `loc + scale * draw`. -/
noncomputable def Simulator.normal (mean std upper lower : ℚ) (draw : ℝ) :
    Except RangeError ℝ :=
  if upper < mean then Except.error RangeError.meanTooHigh
  else if mean < lower then Except.error RangeError.meanTooLow
  else Except.ok ((mean : ℝ) + (std : ℝ) * draw)

/-- Construction failures of `Simulator.__init__` (`simulator.py` lines
36-39).  The Python code raises `AttributeError('Invalid simulator run
times:', times)` and `TypeError('Invalid simulator title:', title)`; the
specification groups both under `ValidationError`. -/
inductive ValidationError where
  | invalidRunTimes
  | invalidTitle
deriving DecidableEq, Repr

/-- A Python value passed as the `times` argument: `isInt` records whether
`isinstance(times, int)` holds, and `val` is the integer value when it
does (and is irrelevant otherwise, since `not isinstance(times, int) or
times < 0` short-circuits). -/
structure TimesArg where
  isInt : Bool
  val : Int
deriving DecidableEq, Repr

/-- A Python value passed as the `title` argument: `isStr` records
`isinstance(title, str)`, `val` is the string value when it is one, and
`truthy` is the Python truthiness of the value; for a string, truthiness
is non-emptiness. -/
structure TitleArg where
  isStr : Bool
  val : String
  truthy : Bool
deriving DecidableEq, Repr

/-- `Simulator` (`simulator.py`): `times`, `title` and the `results` list
the decorated trial loop appends to. -/
structure Simulator where
  times : Nat
  title : String
  results : List ℚ
deriving DecidableEq, Repr

/-- `Simulator.__init__` (`simulator.py` lines 32-42): raises unless
`times` is an `int` with `times >= 0` (`not isinstance(times, int) or
times < 0`) and `title` is a truthy `str` (`not title or not
isinstance(title, str)`); otherwise stores them with an empty results
list. -/
def Simulator.init (times : TimesArg) (title : TitleArg) :
    Except ValidationError Simulator :=
  if ¬ times.isInt ∨ times.val < 0 then
    Except.error ValidationError.invalidRunTimes
  else if ¬ title.truthy ∨ ¬ title.isStr then
    Except.error ValidationError.invalidTitle
  else
    Except.ok { times := times.val.toNat, title := title.val, results := [] }

/-- What one call of the trial function `fn()` does: return a `Decimal`
value, return a value of another type, or raise. -/
inductive TrialResult where
  | decimal (q : ℚ)
  | nonDecimal
  | raised
deriving DecidableEq, Repr

/-- The failure escaping the decorated trial loop: the
`TypeError('Expecting a Decimal, got:', result)` raised on a non-decimal
result (`simulator.py` lines 76-77), or the exception raised by the trial
function itself. -/
inductive TrialError where
  | expectingDecimal
  | trialRaised
deriving DecidableEq, Repr

/-- The loop body of `decorated` (`simulator.py` lines 73-79), starting at
test number `i` with `k` iterations left: each iteration calls `fn`,
checks `isinstance(result, Decimal)`, and appends the accepted result to
`self.results`; a failure stops the loop at once, keeping the results
appended so far (first component) and surfacing the error (second
component). -/
def Simulator.runFrom (fn : Nat → TrialResult) (i : Nat) :
    Nat → List ℚ × Option TrialError
  | 0 => ([], none)
  | Nat.succ k =>
    match fn i with
    | TrialResult.decimal q =>
      let r := Simulator.runFrom fn (i + 1) k
      (q :: r.1, r.2)
    | TrialResult.nonDecimal => ([], some TrialError.expectingDecimal)
    | TrialResult.raised => ([], some TrialError.trialRaised)

/-- `simulate()(fn)` (`simulator.py` lines 61-81): run the trial function
for test numbers `0, ..., self.times - 1`.  The first component is the
final `self.results`, the second the error that escaped the loop, if
any. -/
def Simulator.simulate (sim : Simulator) (fn : Nat → TrialResult) :
    List ℚ × Option TrialError :=
  Simulator.runFrom fn 0 sim.times

/-- `Simulator.average` (`simulator.py` lines 83-88): `sum(self.results) /
len(self.results) if self.results else Decimal(0)`, as a function of the
results list it reads. -/
def Simulator.average (results : List ℚ) : ℚ :=
  if results.isEmpty then 0 else results.sum / results.length

/-- `Simulator.maximum` (`simulator.py` lines 105-110):
`max(self.results) if self.results else Decimal(0)`. -/
def Simulator.maximum (results : List ℚ) : ℚ :=
  match results with
  | [] => 0
  | x :: xs => xs.foldl max x

/-- `Simulator.minimum` (`simulator.py` lines 112-117):
`min(self.results) if self.results else Decimal(0)`. -/
def Simulator.minimum (results : List ℚ) : ℚ :=
  match results with
  | [] => 0
  | x :: xs => xs.foldl min x

/-- The summary block `Simulator.summary` prints on clean exit
(`simulator.py` lines 119-129). -/
structure Summary where
  title : String
  times : Nat
  average : ℚ
  maximum : ℚ
  minimum : ℚ
deriving DecidableEq, Repr

/-- Outcome of the `with` block (`simulator.py` lines 90-103): on a clean
exit `__exit__` calls `self.summary()`; on an exception it raises
`RuntimeError('Failed to run simulator!', exc_value, exc_tb)` wrapping the
original failure, and no summary is printed. -/
inductive RunOutcome where
  | summaryPrinted (s : Summary)
  | failedWrapped (e : TrialError)
deriving DecidableEq, Repr

/-- The whole `with Simulator(...) as simulator: @simulator.simulate()`
pattern: run the decorated trial loop, then `__exit__`.  Returns the
outcome together with the final results list. -/
def Simulator.runWith (sim : Simulator) (fn : Nat → TrialResult) :
    RunOutcome × List ℚ :=
  let r := Simulator.simulate sim fn
  match r.2 with
  | none =>
    (RunOutcome.summaryPrinted
      { title := sim.title
        times := sim.times
        average := Simulator.average r.1
        maximum := Simulator.maximum r.1
        minimum := Simulator.minimum r.1 }, r.1)
  | some e => (RunOutcome.failedWrapped e, r.1)

/-! ## Helper lemmas -/

/-- Appending a cost to the dict adds its value to the total. -/
theorem Costs.total_append (cs : Costs) (c : Cost) :
    Costs.total (cs ++ [c]) = Costs.total cs + c.value := by
  simp [Costs.total]

/-- Adding two costs under the same name in sequence leaves the dict in the
same state as adding only the second one: the second `add` replaces the
entry written by the first. -/
theorem Costs.add_add_same_name (cs : Costs) (c1 c2 : Cost)
    (h : c1.name = c2.name) :
    Costs.add (Costs.add cs c1) c2 = Costs.add cs c2 := by
  unfold Costs.add
  rw [← h]
  by_cases hany : cs.any (fun x => x.name == c1.name) = true
  · rw [if_pos hany, if_pos hany]
    have hmap : (cs.map (fun x => if x.name == c1.name then c1 else x)).any
        (fun x => x.name == c1.name) = true := by
      rw [List.any_map]
      rw [List.any_eq_true] at hany ⊢
      obtain ⟨x, hx, hpx⟩ := hany
      refine ⟨x, hx, ?_⟩
      simp only [Function.comp_apply]
      rw [if_pos hpx]
      simp
    rw [if_pos hmap, List.map_map]
    have hfun : ((fun x => if x.name == c1.name then c2 else x) ∘
        (fun x => if x.name == c1.name then c1 else x)) =
        (fun x => if x.name == c1.name then c2 else x) := by
      funext x
      by_cases hx : x.name = c1.name
      · simp [hx]
      · simp [hx]
    rw [hfun]
  · rw [Bool.not_eq_true] at hany
    have hnot : ¬ ((cs.any fun x => x.name == c1.name) = true) := by
      simp [hany]
    rw [if_neg hnot]
    have happ : ((cs ++ [c1]).any (fun x => x.name == c1.name)) = true := by
      rw [List.any_append]
      simp
    rw [if_pos happ, if_neg hnot, List.map_append]
    have hcs : cs.map (fun x => if x.name == c1.name then c2 else x) = cs := by
      rw [List.any_eq_false] at hany
      have hid : ∀ x ∈ cs, (if x.name == c1.name then c2 else x) = x := by
        intro x hx
        rw [if_neg (hany x hx)]
      rw [List.map_congr_left hid]
      exact List.map_id cs
    rw [hcs]
    simp

/-- Unfolding a shifted range-map by one step. -/
theorem range_map_succ_shift (g : Nat → ℚ) (i k : Nat) :
    (List.range (k + 1)).map (fun j => g (i + j)) =
      g i :: (List.range k).map (fun j => g (i + 1 + j)) := by
  rw [List.range_succ_eq_map, List.map_cons, List.map_map]
  have h0 : i + 0 = i := Nat.add_zero i
  rw [h0]
  have hfun : ((fun j => g (i + j)) ∘ Nat.succ) = (fun j => g (i + 1 + j)) := by
    funext j
    simp only [Function.comp_apply]
    congr 1
    omega
  rw [hfun]

/-- When every trial returns a decimal, the loop from test number `i` over
`k` iterations collects the `k` results in call order and no error. -/
theorem Simulator.runFrom_all_decimal (fn : Nat → TrialResult) (g : Nat → ℚ)
    (hfn : ∀ j, fn j = TrialResult.decimal (g j)) :
    ∀ (k i : Nat),
      Simulator.runFrom fn i k =
        ((List.range k).map (fun j => g (i + j)), none) := by
  intro k
  induction k with
  | zero =>
    intro i
    rfl
  | succ k ih =>
    intro i
    rw [range_map_succ_shift]
    simp only [Simulator.runFrom, hfn i, ih (i + 1)]

/-- When the first `d` trials starting at test number `s` return decimals
and trial `s + d` fails, the loop keeps exactly the `d` earlier results
and surfaces an error. -/
theorem Simulator.runFrom_fail (fn : Nat → TrialResult) (g : Nat → ℚ) :
    ∀ (k s d : Nat), d < k →
      (∀ j, j < d → fn (s + j) = TrialResult.decimal (g (s + j))) →
      (fn (s + d) = TrialResult.nonDecimal ∨ fn (s + d) = TrialResult.raised) →
      ∃ e, Simulator.runFrom fn s k =
        ((List.range d).map (fun j => g (s + j)), some e) := by
  intro k
  induction k with
  | zero =>
    intro s d hd _ _
    exact absurd hd (Nat.not_lt_zero d)
  | succ k ih =>
    intro s d hd hpre hfail
    cases d with
    | zero =>
      have hf0 : fn s = TrialResult.nonDecimal ∨ fn s = TrialResult.raised := by
        simpa using hfail
      rcases hf0 with hf | hf
      · exact ⟨TrialError.expectingDecimal, by simp [Simulator.runFrom, hf]⟩
      · exact ⟨TrialError.trialRaised, by simp [Simulator.runFrom, hf]⟩
    | succ d =>
      have h0 : fn s = TrialResult.decimal (g s) := by
        have h0' := hpre 0 (Nat.succ_pos d)
        simpa using h0'
      have hshift : ∀ j, j < d → fn (s + 1 + j) = TrialResult.decimal (g (s + 1 + j)) := by
        intro j hj
        have heq : s + 1 + j = s + (j + 1) := by omega
        rw [heq]
        exact hpre (j + 1) (by omega)
      have hfail' : fn (s + 1 + d) = TrialResult.nonDecimal ∨
          fn (s + 1 + d) = TrialResult.raised := by
        have heq : s + 1 + d = s + (d + 1) := by omega
        rw [heq]
        exact hfail
      obtain ⟨e, he⟩ := ih (s + 1) d (by omega) hshift hfail'
      refine ⟨e, ?_⟩
      rw [range_map_succ_shift]
      simp only [Simulator.runFrom, h0, he]

/-- The shift by zero in a range-map is trivial. -/
theorem range_map_zero_shift (g : Nat → ℚ) (k : Nat) :
    (List.range k).map (fun j => g (0 + j)) = (List.range k).map g := by
  have hfun : (fun j => g (0 + j)) = g := by
    funext j
    rw [Nat.zero_add]
  rw [hfun]

/-! ## Claims -/

/-- C6 (code bug): the claim says `Costs.get(name)` never fails, returning
the stored cost or a fresh zero-value cost; but the default argument
`Cost(name)` of the `dict.get` call (`cost.py` line 88) is evaluated on
every call and is missing the required `value` argument of
`Cost.__init__`, so every call of `get` — whether or not the name is
stored — raises `TypeError`. -/
theorem C6_get_always_raises (cs : Costs) (name : String) :
    Costs.get cs name = Except.error CostError.missingValueArgument := by
  rfl

/-- C7 (code bug): the claim says a failed negative re-assignment leaves
the stored value unchanged and the invariant `value >= 0` preserved.
Constructing with a negative value does fail without an observable object,
but the value setter (`cost.py` lines 47-56) stores `Decimal(value)`
before checking the sign: re-assigning `-3` to a cost holding `1` raises
`ValueError` with the stored value already mutated to `-3 < 0`. -/
theorem C7_value_setter_mutates_before_raising :
    Cost.init "Energy" (-3) = Except.error CostError.negativeValue ∧
    Cost.setValue { name := "Energy", value := 1 } (-3) =
      ({ name := "Energy", value := -3 }, some CostError.negativeValue) ∧
    (Cost.setValue { name := "Energy", value := 1 } (-3)).1.value < 0 := by
  refine ⟨rfl, rfl, by decide⟩

/-- C8: the total of a cost collection is the sum of the stored values, 0
when empty; adding under a fresh name adds the value; and adding twice
under the same name leaves a total reflecting only the second value. -/
theorem C8_total_sum_and_replacement :
    Costs.total Costs.empty = 0 ∧
    (∀ cs : Costs, Costs.total cs = (cs.map Cost.value).sum) ∧
    (∀ (cs : Costs) (c : Cost),
        cs.any (fun x => x.name == c.name) = false →
        Costs.total (Costs.add cs c) = Costs.total cs + c.value) ∧
    (∀ (cs : Costs) (c1 c2 : Cost), c1.name = c2.name →
        Costs.total (Costs.add (Costs.add cs c1) c2) =
          Costs.total (Costs.add cs c2)) := by
  refine ⟨rfl, fun _ => rfl, ?_, ?_⟩
  · intro cs c hf
    rw [Costs.add, if_neg (by rw [hf]; exact Bool.false_ne_true)]
    exact Costs.total_append cs c
  · intro cs c1 c2 h
    rw [Costs.add_add_same_name cs c1 c2 h]

/-- Witness for C8 at concrete inputs. -/
theorem C8_witness :
    Costs.total (Costs.add Costs.empty { name := "h", value := 20 }) =
      Costs.total Costs.empty + 20 ∧
    Costs.total (Costs.add (Costs.add Costs.empty { name := "a", value := 1 })
        { name := "a", value := 2 }) =
      Costs.total (Costs.add Costs.empty { name := "a", value := 2 }) :=
  ⟨C8_total_sum_and_replacement.2.2.1 Costs.empty { name := "h", value := 20 } rfl,
   C8_total_sum_and_replacement.2.2.2 Costs.empty { name := "a", value := 1 }
     { name := "a", value := 2 } rfl⟩

/-- C9: constructing the trial runner succeeds exactly when `times` is an
integer with `times >= 0` and `title` is a non-empty string; any other
arguments fail with a `ValidationError`.  The side condition ties the
Python truthiness of a string argument to its non-emptiness. -/
theorem C9_init_validation (t : TimesArg) (ti : TitleArg)
    (hstr : ti.isStr = true → (ti.truthy = true ↔ ti.val ≠ "")) :
    ((∃ s, Simulator.init t ti = Except.ok s) ↔
      (t.isInt = true ∧ 0 ≤ t.val ∧ ti.isStr = true ∧ ti.val ≠ "")) ∧
    (¬ (t.isInt = true ∧ 0 ≤ t.val ∧ ti.isStr = true ∧ ti.val ≠ "") →
      ∃ e : ValidationError, Simulator.init t ti = Except.error e) := by
  have hiff : (∃ s, Simulator.init t ti = Except.ok s) ↔
      (t.isInt = true ∧ 0 ≤ t.val ∧ ti.isStr = true ∧ ti.val ≠ "") := by
    constructor
    · rintro ⟨s, hs⟩
      unfold Simulator.init at hs
      by_cases h1 : ¬ t.isInt = true ∨ t.val < 0
      · rw [if_pos h1] at hs
        exact absurd hs (by simp)
      · rw [if_neg h1] at hs
        by_cases h2 : ¬ ti.truthy = true ∨ ¬ ti.isStr = true
        · rw [if_pos h2] at hs
          exact absurd hs (by simp)
        · push_neg at h1 h2
          exact ⟨h1.1, h1.2, h2.2, (hstr h2.2).mp h2.1⟩
    · rintro ⟨hint, hval, hisstr, hne⟩
      refine ⟨{ times := t.val.toNat, title := ti.val, results := [] }, ?_⟩
      unfold Simulator.init
      rw [if_neg (by push_neg; exact ⟨hint, hval⟩),
        if_neg (by push_neg; exact ⟨(hstr hisstr).mpr hne, hisstr⟩)]
  refine ⟨hiff, ?_⟩
  intro hnot
  cases hok : Simulator.init t ti with
  | error e => exact ⟨e, rfl⟩
  | ok s => exact absurd (hiff.mp ⟨s, hok⟩) hnot

/-- Witness for C9 at a concrete valid input. -/
theorem C9_witness :
    ∃ s, Simulator.init { isInt := true, val := 10 }
      { isStr := true, val := "Example", truthy := true } = Except.ok s :=
  (C9_init_validation { isInt := true, val := 10 }
    { isStr := true, val := "Example", truthy := true } (by decide)).1.mpr
    (by refine ⟨rfl, by decide, rfl, by decide⟩)

/-- C1: for strictly positive demand D, total variable cost K and total
storage cost h, `optimum_inventory_level` returns `sqrt(2 * D * K / h)`;
in particular a product with D = 1000, K = 100, h = 20 gets 100. -/
theorem C1_optimum_inventory_level_eoq :
    (∀ p : Product, 0 < p.demand → 0 < Product.total_variable_cost p →
        0 < Product.total_storage_cost p →
        Product.optimum_inventory_level p =
          Except.ok (Real.sqrt
            (((2 * p.demand * Product.total_variable_cost p /
              Product.total_storage_cost p : ℚ) : ℝ)))) ∧
    (∀ p : Product, p.demand = 1000 → Product.total_variable_cost p = 100 →
        Product.total_storage_cost p = 20 →
        Product.optimum_inventory_level p = Except.ok 100) := by
  have hmain : ∀ p : Product, 0 < p.demand →
      0 < Product.total_variable_cost p →
      0 < Product.total_storage_cost p →
      Product.optimum_inventory_level p =
        Except.ok (Real.sqrt
          (((2 * p.demand * Product.total_variable_cost p /
            Product.total_storage_cost p : ℚ) : ℝ))) := by
    intro p hd hk hh
    unfold Product.optimum_inventory_level Product.eoqRadicand
    rw [if_neg hd.ne', if_neg hh.ne', if_neg hk.ne']
    rfl
  refine ⟨hmain, ?_⟩
  intro p hd hk hh
  rw [hmain p (by rw [hd]; norm_num) (by rw [hk]; norm_num)
    (by rw [hh]; norm_num), hd, hk, hh]
  have hval : ((2 * (1000 : ℚ) * 100 / 20 : ℚ) : ℝ) = (100 : ℝ) ^ 2 := by
    norm_num
  rw [hval, Real.sqrt_sq (by norm_num : (0 : ℝ) ≤ 100)]

/-- Witness for C1 at a concrete product with D = 1000, K = 100, h = 20. -/
theorem C1_witness :
    Product.optimum_inventory_level
      { name := "Product III", demand := 1000,
        storage_costs := [{ name := "Warehousing", value := 20 }],
        variable_costs := [{ name := "Energy Costs", value := 100 }] } =
      Except.ok 100 :=
  C1_optimum_inventory_level_eoq.2
    { name := "Product III", demand := 1000,
      storage_costs := [{ name := "Warehousing", value := 20 }],
      variable_costs := [{ name := "Energy Costs", value := 100 }] }
    rfl (by norm_num [Product.total_variable_cost, Costs.total])
    (by norm_num [Product.total_storage_cost, Costs.total])

/-- C2: each zero quantity, with the other two positive, raises its own
distinct failure: zero demand gives the demand error, zero total storage
cost (with positive demand) the storage-cost error, and zero total
variable cost (with positive demand and storage cost) the variable-cost
error. -/
theorem C2_eoq_precondition_errors :
    (∀ p : Product, p.demand = 0 → 0 < Product.total_storage_cost p →
        0 < Product.total_variable_cost p →
        Product.optimum_inventory_level p =
          Except.error DomainError.demandMustBePositive) ∧
    (∀ p : Product, 0 < p.demand → Product.total_storage_cost p = 0 →
        0 < Product.total_variable_cost p →
        Product.optimum_inventory_level p =
          Except.error DomainError.storageCostMustBePositive) ∧
    (∀ p : Product, 0 < p.demand → 0 < Product.total_storage_cost p →
        Product.total_variable_cost p = 0 →
        Product.optimum_inventory_level p =
          Except.error DomainError.variableCostMustBePositive) := by
  refine ⟨?_, ?_, ?_⟩
  · intro p h1 _ _
    unfold Product.optimum_inventory_level Product.eoqRadicand
    rw [if_pos h1]
    rfl
  · intro p h1 h2 _
    unfold Product.optimum_inventory_level Product.eoqRadicand
    rw [if_neg h1.ne', if_pos h2]
    rfl
  · intro p h1 h2 h3
    unfold Product.optimum_inventory_level Product.eoqRadicand
    rw [if_neg h1.ne', if_neg h2.ne', if_pos h3]
    rfl

/-- Witness for C2 at three concrete products, one per zero quantity. -/
theorem C2_witness :
    Product.optimum_inventory_level
      { name := "P", demand := 0,
        storage_costs := [{ name := "h", value := 20 }],
        variable_costs := [{ name := "K", value := 100 }] } =
      Except.error DomainError.demandMustBePositive ∧
    Product.optimum_inventory_level
      { name := "P", demand := 1000,
        storage_costs := [],
        variable_costs := [{ name := "K", value := 100 }] } =
      Except.error DomainError.storageCostMustBePositive ∧
    Product.optimum_inventory_level
      { name := "P", demand := 1000,
        storage_costs := [{ name := "h", value := 20 }],
        variable_costs := [] } =
      Except.error DomainError.variableCostMustBePositive :=
  ⟨C2_eoq_precondition_errors.1 _ rfl
     (by norm_num [Product.total_storage_cost, Costs.total])
     (by norm_num [Product.total_variable_cost, Costs.total]),
   C2_eoq_precondition_errors.2.1 _ (by norm_num)
     (by norm_num [Product.total_storage_cost, Costs.total])
     (by norm_num [Product.total_variable_cost, Costs.total]),
   C2_eoq_precondition_errors.2.2 _ (by norm_num)
     (by norm_num [Product.total_storage_cost, Costs.total])
     (by norm_num [Product.total_variable_cost, Costs.total])⟩

/-- C3: with positive `std`, `normal` fails before sampling with the
mean-too-high error when `mean > upper`, with the mean-too-low error when
`mean < lower`, and with some `RangeError` whenever the mean is out of
range; when `lower <= mean <= upper`, for every outcome of the random draw
in the truncated support the returned value lies in `[lower, upper]`. -/
theorem C3_normal_truncated (mean std upper lower : ℚ) (draw : ℝ)
    (hstd : 0 < std) :
    (upper < mean →
      Simulator.normal mean std upper lower draw =
        Except.error RangeError.meanTooHigh) ∧
    (mean < lower → mean ≤ upper →
      Simulator.normal mean std upper lower draw =
        Except.error RangeError.meanTooLow) ∧
    ((upper < mean ∨ mean < lower) →
      ∃ e, Simulator.normal mean std upper lower draw = Except.error e) ∧
    (lower ≤ mean → mean ≤ upper →
      ((lower - mean : ℚ) : ℝ) / ((std : ℚ) : ℝ) ≤ draw →
      draw ≤ ((upper - mean : ℚ) : ℝ) / ((std : ℚ) : ℝ) →
      ∃ v, Simulator.normal mean std upper lower draw = Except.ok v ∧
        ((lower : ℚ) : ℝ) ≤ v ∧ v ≤ ((upper : ℚ) : ℝ)) := by
  have hstdR : (0 : ℝ) < ((std : ℚ) : ℝ) := by exact_mod_cast hstd
  refine ⟨?_, ?_, ?_, ?_⟩
  · intro hhi
    unfold Simulator.normal
    rw [if_pos hhi]
  · intro hlo hle
    unfold Simulator.normal
    rw [if_neg (not_lt.mpr hle), if_pos hlo]
  · intro hout
    rcases hout with hhi | hlo
    · refine ⟨RangeError.meanTooHigh, ?_⟩
      unfold Simulator.normal
      rw [if_pos hhi]
    · by_cases hhi : upper < mean
      · refine ⟨RangeError.meanTooHigh, ?_⟩
        unfold Simulator.normal
        rw [if_pos hhi]
      · refine ⟨RangeError.meanTooLow, ?_⟩
        unfold Simulator.normal
        rw [if_neg hhi, if_pos hlo]
  · intro hlo hhi hd1 hd2
    refine ⟨((mean : ℚ) : ℝ) + ((std : ℚ) : ℝ) * draw, ?_, ?_, ?_⟩
    · unfold Simulator.normal
      rw [if_neg (not_lt.mpr hhi), if_neg (not_lt.mpr hlo)]
    · push_cast at hd1 ⊢
      rw [div_le_iff₀ hstdR] at hd1
      have hcomm : ((std : ℚ) : ℝ) * draw = draw * ((std : ℚ) : ℝ) :=
        mul_comm _ _
      push_cast at hd1 hcomm ⊢
      linarith
    · push_cast at hd2 ⊢
      rw [le_div_iff₀ hstdR] at hd2
      have hcomm : ((std : ℚ) : ℝ) * draw = draw * ((std : ℚ) : ℝ) :=
        mul_comm _ _
      push_cast at hd2 hcomm ⊢
      linarith

/-- Witness for C3 at the three examples of the specification: mean 11 is
too high, mean 0 is too low, mean 5 stays within `[1, 10]` (shown at the
draw 0). -/
theorem C3_witness :
    Simulator.normal 11 1 10 1 0 = Except.error RangeError.meanTooHigh ∧
    Simulator.normal 0 1 10 1 0 = Except.error RangeError.meanTooLow ∧
    (∃ v, Simulator.normal 5 1 10 1 0 = Except.ok v ∧
      (((1 : ℚ) : ℝ) ≤ v ∧ v ≤ ((10 : ℚ) : ℝ))) :=
  ⟨(C3_normal_truncated 11 1 10 1 0 (by norm_num)).1 (by norm_num),
   (C3_normal_truncated 0 1 10 1 0 (by norm_num)).2.1 (by norm_num)
     (by norm_num),
   (C3_normal_truncated 5 1 10 1 0 (by norm_num)).2.2.2 (by norm_num)
     (by norm_num) (by push_cast; norm_num) (by push_cast; norm_num)⟩

/-- C4: for a runner with `times = N` and a trial function returning a
decimal on every call, the run completes with no error, the results are
the `N` returned decimals in call order, and the average is the sum
divided by `N`, defined as 0 when `N = 0`. -/
theorem C4_run_shape (sim : Simulator) (fn : Nat → TrialResult)
    (g : Nat → ℚ) (hfn : ∀ j, fn j = TrialResult.decimal (g j)) :
    Simulator.simulate sim fn = ((List.range sim.times).map g, none) ∧
    (Simulator.simulate sim fn).1.length = sim.times ∧
    Simulator.average (Simulator.simulate sim fn).1 =
      (if sim.times = 0 then 0
        else (Simulator.simulate sim fn).1.sum / (sim.times : ℚ)) := by
  have hsim : Simulator.simulate sim fn =
      ((List.range sim.times).map g, none) := by
    rw [Simulator.simulate, Simulator.runFrom_all_decimal fn g hfn sim.times 0,
      range_map_zero_shift]
  refine ⟨hsim, ?_, ?_⟩
  · rw [hsim]
    simp
  · rw [hsim]
    by_cases h0 : sim.times = 0
    · rw [if_pos h0, h0]
      rfl
    · rw [if_neg h0]
      have hne : ¬ ((List.range sim.times).map g).isEmpty = true := by
        simp [List.isEmpty_iff, h0]
      rw [Simulator.average, if_neg hne]
      simp

/-- Witness for C4: three trials all returning 42. -/
theorem C4_witness :
    Simulator.simulate { times := 3, title := "Example", results := [] }
        (fun _ => TrialResult.decimal 42) =
      ((List.range 3).map (fun _ => (42 : ℚ)), none) ∧
    (Simulator.simulate { times := 3, title := "Example", results := [] }
        (fun _ => TrialResult.decimal 42)).1.length = 3 ∧
    Simulator.average
        (Simulator.simulate { times := 3, title := "Example", results := [] }
          (fun _ => TrialResult.decimal 42)).1 =
      (if (3 : Nat) = 0 then 0
        else (Simulator.simulate { times := 3, title := "Example", results := [] }
            (fun _ => TrialResult.decimal 42)).1.sum / ((3 : Nat) : ℚ)) :=
  C4_run_shape { times := 3, title := "Example", results := [] }
    (fun _ => TrialResult.decimal 42) (fun _ => 42) (fun _ => rfl)

/-- C5: if the trial function returns decimals at every iteration before
`i` and fails at iteration `i` (raises, or returns a non-decimal), the run
aborts keeping exactly the `i` earlier results in call order, the failure
is re-raised wrapped by `__exit__`, and no summary is printed. -/
theorem C5_run_aborts_on_failure (sim : Simulator) (fn : Nat → TrialResult)
    (g : Nat → ℚ) (i : Nat) (hi : i < sim.times)
    (hpre : ∀ j, j < i → fn j = TrialResult.decimal (g j))
    (hfail : fn i = TrialResult.nonDecimal ∨ fn i = TrialResult.raised) :
    ∃ e, Simulator.simulate sim fn = ((List.range i).map g, some e) ∧
      Simulator.runWith sim fn =
        (RunOutcome.failedWrapped e, (List.range i).map g) := by
  have hpre' : ∀ j, j < i → fn (0 + j) = TrialResult.decimal (g (0 + j)) := by
    intro j hj
    rw [Nat.zero_add]
    exact hpre j hj
  have hfail' : fn (0 + i) = TrialResult.nonDecimal ∨
      fn (0 + i) = TrialResult.raised := by
    rw [Nat.zero_add]
    exact hfail
  obtain ⟨e, he⟩ := Simulator.runFrom_fail fn g sim.times 0 i hi hpre' hfail'
  have hsim : Simulator.simulate sim fn = ((List.range i).map g, some e) := by
    rw [Simulator.simulate, he, range_map_zero_shift]
  refine ⟨e, hsim, ?_⟩
  rw [Simulator.runWith, hsim]

/-- Witness for C5: two trials, the first returning 7 and the second
returning a non-decimal, keep exactly the first result and end wrapped. -/
theorem C5_witness :
    ∃ e, Simulator.simulate { times := 2, title := "Example", results := [] }
        (fun j => if j = 0 then TrialResult.decimal 7 else TrialResult.nonDecimal) =
      ((List.range 1).map (fun _ => (7 : ℚ)), some e) ∧
      Simulator.runWith { times := 2, title := "Example", results := [] }
        (fun j => if j = 0 then TrialResult.decimal 7 else TrialResult.nonDecimal) =
      (RunOutcome.failedWrapped e, (List.range 1).map (fun _ => (7 : ℚ))) :=
  C5_run_aborts_on_failure { times := 2, title := "Example", results := [] }
    (fun j => if j = 0 then TrialResult.decimal 7 else TrialResult.nonDecimal)
    (fun _ => 7) 1 (by decide)
    (fun j hj => by
      have hj0 : j = 0 := by omega
      rw [hj0]
      rfl)
    (Or.inl rfl)

/-- C10: the string representation of a cost collection always raises
`AttributeError`: the f-string of `Costs.__repr__` reads `self.name`,
which neither the instance nor the `Costs` class defines. -/
theorem C10_reprImpl_always_attribute_error (cs : Costs) :
    Costs.reprImpl cs = Except.error (CostError.attributeError "name") := by
  rfl

end SupplyChain
